import Mathlib

/-!
Verification of the asynchronous job submission / status / cancellation
protocol of a FastAPI + Celery template application.

The embedding below is a shallow translation of the repository's source:

* `app/items/tasks.py`   : the task bodies `process_item` and `bulk_import`
* `app/files/tasks.py`   : the task bodies `process_file` and `cleanup_old_files`
* `app/celery_tasks/router.py` : request/response schemas and the endpoint
  handlers `create_process_item_task`, `create_bulk_import_task`,
  `create_process_file_task`, `create_cleanup_files_task`,
  `get_task_status` and `revoke_task`.

The Celery library itself is external to the repository; the small amount
of its behaviour the handlers depend on is modelled explicitly:

* `AsyncResult(id).status` is the state stored in the result backend for
  the id, and is `PENDING` when the backend has no record of the id
  (Celery's documented behaviour for unknown or expired task ids);
* `AsyncResult.ready()` tests membership in Celery's `READY_STATES`,
  which is the frozen set SUCCESS, FAILURE, REVOKED;
* `AsyncResult.successful()` tests state == SUCCESS;
* `AsyncResult.result` and `AsyncResult.info` are the same stored value;
* a task body that returns a value `v` ends with the backend holding the
  record (SUCCESS, v).

Python dictionaries produced by the task bodies are modelled as ordered
association lists over a small JSON value type; a task body's internal
loop is modelled by structural recursion mirroring the Python loop, and
the progress side channel (`self.update_state`) by returning the list of
published progress payloads alongside the return value.
-/

namespace FCApp

/-- Json models the JSON-compatible values that cross the wire: the task
arguments, stored results and progress payloads.  Objects are ordered
association lists, matching Python dict literal order. -/
inductive Json where
  | null : Json
  | bool : Bool → Json
  | int : Int → Json
  | num : ℚ → Json
  | str : String → Json
  | arr : List Json → Json
  | obj : List (String × Json) → Json

/-- Json.lookup finds the value stored under a key of a JSON object
(none for a missing key or a non-object). -/
def Json.lookup (j : Json) (k : String) : Option Json :=
  match j with
  | Json.obj kvs => List.lookup k kvs
  | _ => none

/-- CeleryState enumerates the task states this application can observe:
the Celery built-ins PENDING, STARTED, SUCCESS, FAILURE, REVOKED plus the
custom PROGRESS state published by `bulk_import` via `update_state`.
(Celery's RETRY/RECEIVED states are never produced by this app's tasks.) -/
inductive CeleryState where
  | PENDING : CeleryState
  | STARTED : CeleryState
  | PROGRESS : CeleryState
  | SUCCESS : CeleryState
  | FAILURE : CeleryState
  | REVOKED : CeleryState
deriving DecidableEq

/-- stateName is the string form of a state, as exposed by
`AsyncResult.status` and compared against "PROGRESS" in the router. -/
def stateName : CeleryState → String
  | CeleryState.PENDING => "PENDING"
  | CeleryState.STARTED => "STARTED"
  | CeleryState.PROGRESS => "PROGRESS"
  | CeleryState.SUCCESS => "SUCCESS"
  | CeleryState.FAILURE => "FAILURE"
  | CeleryState.REVOKED => "REVOKED"

/-- ready mirrors Celery `AsyncResult.ready()`: membership in Celery's
READY_STATES = frozenset(SUCCESS, FAILURE, REVOKED). -/
def ready : CeleryState → Bool
  | CeleryState.SUCCESS => true
  | CeleryState.FAILURE => true
  | CeleryState.REVOKED => true
  | _ => false

/-- successful mirrors Celery `AsyncResult.successful()`: state == SUCCESS. -/
def successful : CeleryState → Bool
  | CeleryState.SUCCESS => true
  | _ => false

/-- isTerminal is the spec's notion of a terminal status: SUCCESS, FAILURE
or REVOKED.  It coincides with Celery's `ready()` (see readyEqTerminal). -/
def isTerminal (st : CeleryState) : Prop :=
  st = CeleryState.SUCCESS ∨ st = CeleryState.FAILURE ∨ st = CeleryState.REVOKED

instance (st : CeleryState) : Decidable (isTerminal st) := by
  unfold isTerminal
  infer_instance

/-- BackendRecord is what the result backend stores for a task id: the
current state and the stored value (`AsyncResult.result` / `.info`):
the return value after SUCCESS, the progress payload during PROGRESS,
the exception rendering for FAILURE/REVOKED. -/
structure BackendRecord where
  state : CeleryState
  value : Json

/-- Backend is the result backend's key-value store, keyed by task id;
`none` means the backend has no record of the id (never submitted, or
expired). -/
def Backend : Type := String → Option BackendRecord

/-- asyncResultState mirrors `AsyncResult(task_id).status` against a given
backend: the stored state, or PENDING when the backend has no record of
the id (Celery's documented behaviour for unknown task ids). -/
def asyncResultState (backend : Backend) (task_id : String) : CeleryState :=
  match backend task_id with
  | some r => r.state
  | none => CeleryState.PENDING

/-- asyncResultValue mirrors `AsyncResult(task_id).result` (identical to
`.info`): the stored value, or None when the backend has no record. -/
def asyncResultValue (backend : Backend) (task_id : String) : Json :=
  match backend task_id with
  | some r => r.value
  | none => Json.null

/-- pyStr models Python `str(...)` applied to a stored value, as the router
does in `str(result.result)`.  The claims verified below depend only on
whether an error string is produced, never on its exact rendering. -/
def pyStr : Json → String
  | Json.null => "None"
  | Json.bool true => "True"
  | Json.bool false => "False"
  | Json.int n => toString n
  | Json.num q => toString q
  | Json.str s => s
  | Json.arr _ => "<list>"
  | Json.obj _ => "<dict>"

/-- completedRecord models what the result backend holds after a worker
runs a task body to completion with return value `v`: state SUCCESS, the
value stored as the result. -/
def completedRecord (v : Json) : BackendRecord :=
  BackendRecord.mk CeleryState.SUCCESS v

/-- backendWith is a backend holding exactly one record, under `tid`. -/
def backendWith (tid : String) (r : BackendRecord) : Backend :=
  fun i => if i = tid then some r else none

/-- ProcessItemRequest mirrors the pydantic request schema in router.py
(`item_id: int`, `operation: str = "validate"`). -/
structure ProcessItemRequest where
  item_id : Int
  operation : String

/-- BulkImportRequest mirrors the pydantic schema (`items: list[dict]`). -/
structure BulkImportRequest where
  items : List Json

/-- ProcessFileRequest mirrors the pydantic schema
(`filename: str`, `operation: str = "analyze"`). -/
structure ProcessFileRequest where
  filename : String
  operation : String

/-- CleanupFilesRequest mirrors the pydantic schema
(`max_age_days: int = 30`). -/
structure CleanupFilesRequest where
  max_age_days : Int

/-- TaskResponse mirrors the submission response schema in router.py. -/
structure TaskResponse where
  task_id : String
  status : String
deriving DecidableEq

/-- TaskStatusResponse mirrors the status response schema in router.py:
`result` and `error` both default to None. -/
structure TaskStatusResponse where
  task_id : String
  status : String
  result : Option Json
  error : Option String

/-- JobDescriptor is the unit of work handed to `delay`: the registered
task name and its positional arguments. -/
structure JobDescriptor where
  name : String
  args : List Json

/-- create_process_item_task mirrors the POST /items/process handler:
`process_item.delay(request.item_id, request.operation)` then
`TaskResponse(task_id=task.id, status="PENDING")`.  `freshId` is the task
id minted by the queue at delay time. -/
def create_process_item_task (freshId : String) (request : ProcessItemRequest) :
    JobDescriptor × TaskResponse :=
  (JobDescriptor.mk "items.process_item" [Json.int request.item_id, Json.str request.operation],
   TaskResponse.mk freshId "PENDING")

/-- create_bulk_import_task mirrors the POST /items/bulk-import handler. -/
def create_bulk_import_task (freshId : String) (request : BulkImportRequest) :
    JobDescriptor × TaskResponse :=
  (JobDescriptor.mk "items.bulk_import" [Json.arr request.items],
   TaskResponse.mk freshId "PENDING")

/-- create_process_file_task mirrors the POST /files/process handler. -/
def create_process_file_task (freshId : String) (request : ProcessFileRequest) :
    JobDescriptor × TaskResponse :=
  (JobDescriptor.mk "files.process_file" [Json.str request.filename, Json.str request.operation],
   TaskResponse.mk freshId "PENDING")

/-- create_cleanup_files_task mirrors the POST /files/cleanup handler. -/
def create_cleanup_files_task (freshId : String) (request : CleanupFilesRequest) :
    JobDescriptor × TaskResponse :=
  (JobDescriptor.mk "files.cleanup_old_files" [Json.int request.max_age_days],
   TaskResponse.mk freshId "PENDING")

/-- get_task_status mirrors the GET /status/(task_id) handler:
build the response with both optional fields None, then
if ready(): result on successful() else error = str(result.result);
elif status == "PROGRESS": result = result.info. -/
def get_task_status (backend : Backend) (task_id : String) : TaskStatusResponse :=
  let st := asyncResultState backend task_id
  if ready st then
    if successful st then
      TaskStatusResponse.mk task_id (stateName st) (some (asyncResultValue backend task_id)) none
    else
      TaskStatusResponse.mk task_id (stateName st) none (some (pyStr (asyncResultValue backend task_id)))
  else if stateName st = "PROGRESS" then
    TaskStatusResponse.mk task_id (stateName st) (some (asyncResultValue backend task_id)) none
  else
    TaskStatusResponse.mk task_id (stateName st) none none

/-- RevokeResponse is the outcome of the DELETE /revoke/(task_id) handler:
either the raised HTTPException (status code plus detail) or the 200 JSON
body returned. -/
inductive RevokeResponse where
  | httpError : Nat → String → RevokeResponse
  | ok : String → String → RevokeResponse
deriving DecidableEq

/-- revoke_task mirrors the DELETE /revoke/(task_id) handler.  The Bool
records whether `celery_app.control.revoke(task_id, terminate=True)` was
executed (the revoke broadcast); when the handler raises 400 the broadcast
never happens and the backend record is untouched. -/
def revoke_task (backend : Backend) (task_id : String) : RevokeResponse × Bool :=
  if ready (asyncResultState backend task_id) then
    (RevokeResponse.httpError 400 "Task already completed", false)
  else
    (RevokeResponse.ok task_id "revoked", true)

/-- process_item mirrors the task body in app/items/tasks.py: sleep, then
return the dict with task_id, item_id, operation and status keys in the
source's literal order. -/
def process_item (taskId : String) (item_id : Int) (operation : String) : Json :=
  Json.obj
    [("task_id", Json.str taskId),
     ("item_id", Json.int item_id),
     ("operation", Json.str operation),
     ("status", Json.str "completed")]

/-- ProgressMeta is the payload `bulk_import` publishes through
`self.update_state(state="PROGRESS", meta=...)`: the dict with keys
current, total, percent.  percent is modelled as a rational: Python
computes it in floating point, but for these operand sizes the claims
checked below are about the exact quotient. -/
structure ProgressMeta where
  current : Nat
  total : Nat
  percent : ℚ
deriving DecidableEq

/-- bulkImportLoop mirrors the `for i, _item in enumerate(items_data)`
loop of bulk_import: per element, processed += 1, then publish
(current = i+1, total, percent = ((i+1)/total)*100).  Returns the ordered
list of published progress payloads and the final processed counter. -/
def bulkImportLoop (total : Nat) : List Json → Nat → Nat → List ProgressMeta × Nat
  | [], _i, processed => ([], processed)
  | _item :: rest, i, processed =>
    let processed1 := processed + 1
    let progress : ℚ := ((i : ℚ) + 1) / (total : ℚ) * 100
    let stepRest := bulkImportLoop total rest (i + 1) processed1
    (ProgressMeta.mk (i + 1) total progress :: stepRest.1, stepRest.2)

/-- bulk_import mirrors the task body in app/items/tasks.py: total =
len(items_data), run the loop from processed = 0, return the ordered list
of progress updates it published together with the final result dict. -/
def bulk_import (taskId : String) (items_data : List Json) : List ProgressMeta × Json :=
  let total := items_data.length
  let run := bulkImportLoop total items_data 0 0
  (run.1,
   Json.obj
     [("task_id", Json.str taskId),
      ("status", Json.str "completed"),
      ("total_items", Json.int total),
      ("processed", Json.int run.2)])

/-- processingTime mirrors `processing_times.get(operation, 2)` in
app/files/tasks.py: the per-operation sleep duration, defaulting to 2 for
any operation string outside the four known ones. -/
def processingTime (operation : String) : Nat :=
  if operation = "analyze" then 2
  else if operation = "scan" then 3
  else if operation = "convert" then 5
  else if operation = "compress" then 4
  else 2

/-- process_file mirrors the task body in app/files/tasks.py: sleep for
processingTime operation, then return the result dict; the pair records
the sleep duration alongside the returned dict. -/
def process_file (taskId : String) (filename : String) (operation : String) : Nat × Json :=
  (processingTime operation,
   Json.obj
     [("task_id", Json.str taskId),
      ("filename", Json.str filename),
      ("operation", Json.str operation),
      ("status", Json.str "completed")])

/-- cleanup_old_files mirrors the task body in app/files/tasks.py:
deleted_count is the placeholder 0. -/
def cleanup_old_files (taskId : String) (max_age_days : Int) : Json :=
  Json.obj
    [("task_id", Json.str taskId),
     ("status", Json.str "completed"),
     ("max_age_days", Json.int max_age_days),
     ("deleted_count", Json.int 0)]

/-- bulkImportLoop, started at index i and counter p, publishes exactly one
progress payload per element, with current running from i+1 upward, total
fixed, and percent = current/total*100; the final counter is p plus the
number of elements. -/
theorem bulkImportLoop_eq (total : Nat) (items : List Json) (i p : Nat) :
    bulkImportLoop total items i p =
      ((List.range' (i + 1) items.length).map
          (fun c => ProgressMeta.mk c total ((c : ℚ) / (total : ℚ) * 100)),
        p + items.length) := by
  induction items generalizing i p with
  | nil => simp [bulkImportLoop]
  | cons a rest ih =>
    have hc : (((i + 1 : Nat) : ℚ)) = (i : ℚ) + 1 := by push_cast; ring
    simp only [bulkImportLoop, ih, List.length_cons, List.range'_succ, List.map_cons,
      Prod.mk.injEq, List.cons.injEq, hc]
    exact ⟨trivial, by omega⟩

/-- bulk_import publishes the progress payloads current = 1..N in order. -/
theorem bulk_import_updates (taskId : String) (items : List Json) :
    (bulk_import taskId items).1 =
      (List.range' 1 items.length).map
        (fun c => ProgressMeta.mk c items.length ((c : ℚ) / (items.length : ℚ) * 100)) := by
  simp [bulk_import, bulkImportLoop_eq]

/-- bulk_import returns the result dict with total_items and processed both
equal to the input length. -/
theorem bulk_import_result (taskId : String) (items : List Json) :
    (bulk_import taskId items).2 =
      Json.obj
        [("task_id", Json.str taskId),
         ("status", Json.str "completed"),
         ("total_items", Json.int items.length),
         ("processed", Json.int items.length)] := by
  simp [bulk_import, bulkImportLoop_eq]

/-- Claim C1, counterexample: for a task whose backend state is REVOKED,
get_task_status reports status REVOKED with the error field populated
(the router's else branch fires for every ready-but-not-successful state,
and REVOKED is a ready state), contradicting the claim that in every
status other than SUCCESS/FAILURE/PROGRESS both fields are absent. -/
theorem get_task_status_revoked_populates_error :
    (get_task_status
        (backendWith "rev-1" (BackendRecord.mk CeleryState.REVOKED (Json.str "revoked")))
        "rev-1").status = "REVOKED" ∧
    (get_task_status
        (backendWith "rev-1" (BackendRecord.mk CeleryState.REVOKED (Json.str "revoked")))
        "rev-1").error = some "revoked" ∧
    (get_task_status
        (backendWith "rev-1" (BackendRecord.mk CeleryState.REVOKED (Json.str "revoked")))
        "rev-1").result = none :=
  ⟨rfl, rfl, rfl⟩

/-- Claim C1 (amended): in every status response, the result field is
populated exactly when the reported status is SUCCESS or PROGRESS (for
PROGRESS it carries the stored progress mapping), and the error field is
populated exactly when the reported status is FAILURE or REVOKED; in the
remaining statuses (PENDING, STARTED) both fields are None. -/
theorem get_task_status_field_population (backend : Backend) (task_id : String) :
    ((get_task_status backend task_id).result.isSome ↔
      (get_task_status backend task_id).status = "SUCCESS" ∨
      (get_task_status backend task_id).status = "PROGRESS") ∧
    ((get_task_status backend task_id).error.isSome ↔
      (get_task_status backend task_id).status = "FAILURE" ∨
      (get_task_status backend task_id).status = "REVOKED") ∧
    ((get_task_status backend task_id).status = "PROGRESS" →
      (get_task_status backend task_id).result = some (asyncResultValue backend task_id)) := by
  cases hst : asyncResultState backend task_id <;>
    simp [get_task_status, hst, ready, successful, stateName]

/-- Claim C1 witness: the amended theorem applied to a backend holding a
PROGRESS record, discharging the PROGRESS implication concretely. -/
theorem get_task_status_field_population_witness :
    (get_task_status
        (backendWith "prog-1"
          (BackendRecord.mk CeleryState.PROGRESS (Json.obj [("current", Json.int 1)])))
        "prog-1").status = "PROGRESS" ∧
    (get_task_status
        (backendWith "prog-1"
          (BackendRecord.mk CeleryState.PROGRESS (Json.obj [("current", Json.int 1)])))
        "prog-1").result =
      some (asyncResultValue
        (backendWith "prog-1"
          (BackendRecord.mk CeleryState.PROGRESS (Json.obj [("current", Json.int 1)])))
        "prog-1") :=
  ⟨rfl,
   (get_task_status_field_population
      (backendWith "prog-1"
        (BackendRecord.mk CeleryState.PROGRESS (Json.obj [("current", Json.int 1)])))
      "prog-1").2.2 rfl⟩

/-- Claim C2, counterexample: querying the status of an identifier the
backend has no record of answers PENDING, not UNKNOWN — the router
forwards Celery's status unchanged and Celery reports unknown ids as
PENDING; no UNKNOWN status exists anywhere in the code. -/
theorem get_task_status_unknown_id_is_pending :
    (get_task_status (fun _ => none) "never-submitted").status = "PENDING" ∧
    (get_task_status (fun _ => none) "never-submitted").status ≠ "UNKNOWN" :=
  ⟨rfl, by decide⟩

/-- Claim C2 (amended): for every identifier the backend has no record of
(never submitted, or expired), the status query reports PENDING — exactly
what the claim says must not happen; the code never reports UNKNOWN and
cannot distinguish an unknown identifier from a pending one. -/
theorem get_task_status_unknown_id (backend : Backend) (tid : String)
    (h : backend tid = none) :
    (get_task_status backend tid).status = "PENDING" ∧
    (get_task_status backend tid).status ≠ "UNKNOWN" ∧
    (get_task_status backend tid).result = none ∧
    (get_task_status backend tid).error = none := by
  simp [get_task_status, asyncResultState, h, ready, successful, stateName]

/-- Claim C2 witness: the amended theorem at the empty backend. -/
theorem get_task_status_unknown_id_witness :
    ((fun _ => none : Backend) "ghost-id" = none) ∧
    ((get_task_status (fun _ => none) "ghost-id").status = "PENDING" ∧
     (get_task_status (fun _ => none) "ghost-id").status ≠ "UNKNOWN" ∧
     (get_task_status (fun _ => none) "ghost-id").result = none ∧
     (get_task_status (fun _ => none) "ghost-id").error = none) :=
  ⟨rfl, get_task_status_unknown_id (fun _ => none) "ghost-id" rfl⟩

/-- Claim C3: when the job's status is terminal (SUCCESS, FAILURE or
REVOKED — exactly Celery's ready states, which the handler tests), the
revoke endpoint raises HTTP 400 with detail "Task already completed" and
never executes the revoke broadcast (so the record is untouched); for any
non-terminal status it broadcasts the revoke and returns the 200 body
with task_id and status "revoked". -/
theorem revoke_task_terminal_vs_active (backend : Backend) (tid : String) :
    (isTerminal (asyncResultState backend tid) →
      revoke_task backend tid =
        (RevokeResponse.httpError 400 "Task already completed", false)) ∧
    (¬ isTerminal (asyncResultState backend tid) →
      revoke_task backend tid = (RevokeResponse.ok tid "revoked", true)) := by
  cases hst : asyncResultState backend tid <;>
    simp [revoke_task, hst, ready, isTerminal]

/-- Claim C3 witness: the theorem applied to a backend holding a SUCCESS
record (terminal branch) and to the empty backend (non-terminal branch). -/
theorem revoke_task_terminal_vs_active_witness :
    revoke_task (backendWith "done-1" (BackendRecord.mk CeleryState.SUCCESS Json.null)) "done-1" =
      (RevokeResponse.httpError 400 "Task already completed", false) ∧
    revoke_task (fun _ => none) "pending-1" =
      (RevokeResponse.ok "pending-1" "revoked", true) :=
  ⟨(revoke_task_terminal_vs_active
      (backendWith "done-1" (BackendRecord.mk CeleryState.SUCCESS Json.null)) "done-1").1
      (Or.inl rfl),
   (revoke_task_terminal_vs_active (fun _ => none) "pending-1").2 (by decide)⟩

/-- Claim C4: on a non-empty input of N elements, bulk_import publishes
exactly one progress update per element; current takes the values 1..N in
order (hence non-decreasing), every update carries total = N and
percent = 100*current/total, and the final update has current = N. -/
theorem bulk_import_progress_trace (taskId : String) (items : List Json)
    (h : items ≠ []) :
    (bulk_import taskId items).1.length = items.length ∧
    (bulk_import taskId items).1.map ProgressMeta.current = List.range' 1 items.length ∧
    (∀ u ∈ (bulk_import taskId items).1,
      u.total = items.length ∧ u.percent = 100 * (u.current : ℚ) / (u.total : ℚ)) ∧
    ((bulk_import taskId items).1.map ProgressMeta.current).getLast? =
      some items.length := by
  rw [bulk_import_updates]
  have hmap :
      (List.map (fun c => ProgressMeta.mk c items.length
          ((c : ℚ) / (items.length : ℚ) * 100)) (List.range' 1 items.length)).map
        ProgressMeta.current = List.range' 1 items.length := by
    simp [List.map_map, Function.comp_def]
  refine ⟨by simp, hmap, ?_, ?_⟩
  · intro u hu
    simp only [List.mem_map] at hu
    obtain ⟨c, _hc, rfl⟩ := hu
    exact ⟨rfl, by ring⟩
  · rw [hmap]
    cases items with
    | nil => exact absurd rfl h
    | cons b bs =>
      rw [List.length_cons, List.range'_1_concat]
      simp [Nat.add_comm]

/-- Claim C4 witness: the theorem at the one-element list, with the
binder-free conjuncts of its conclusion. -/
theorem bulk_import_progress_trace_witness :
    ([Json.null] : List Json) ≠ [] ∧
    (bulk_import "bulk-1" [Json.null]).1.length = 1 ∧
    (bulk_import "bulk-1" [Json.null]).1.map ProgressMeta.current = List.range' 1 1 ∧
    ((bulk_import "bulk-1" [Json.null]).1.map ProgressMeta.current).getLast? = some 1 :=
  ⟨by simp,
   (bulk_import_progress_trace "bulk-1" [Json.null] (by simp)).1,
   (bulk_import_progress_trace "bulk-1" [Json.null] (by simp)).2.1,
   (bulk_import_progress_trace "bulk-1" [Json.null] (by simp)).2.2.2⟩

/-- Claim C5: all four submission handlers return the response with the
freshly minted task id and the literal status "PENDING"; none of them
consults the backend, so the body is independent of the job's actual
state. -/
theorem submission_returns_pending (freshId : String) (r1 : ProcessItemRequest)
    (r2 : BulkImportRequest) (r3 : ProcessFileRequest) (r4 : CleanupFilesRequest) :
    (create_process_item_task freshId r1).2 = TaskResponse.mk freshId "PENDING" ∧
    (create_bulk_import_task freshId r2).2 = TaskResponse.mk freshId "PENDING" ∧
    (create_process_file_task freshId r3).2 = TaskResponse.mk freshId "PENDING" ∧
    (create_cleanup_files_task freshId r4).2 = TaskResponse.mk freshId "PENDING" :=
  ⟨rfl, rfl, rfl, rfl⟩

/-- Claim C6, counterexample: the result dict of process_item on
(item_id = 1, operation = "validate") is not equal to the three-key
mapping the claim states — the code also stores the task_id key. -/
theorem process_item_result_not_three_keys :
    process_item "item-task-1" 1 "validate" ≠
      Json.obj
        [("item_id", Json.int 1), ("operation", Json.str "validate"),
         ("status", Json.str "completed")] := by
  intro hEq
  have hLook : some (Json.str "item-task-1") = (none : Option Json) := by
    calc some (Json.str "item-task-1")
        = Json.lookup (process_item "item-task-1" 1 "validate") "task_id" := rfl
      _ = Json.lookup (Json.obj
            [("item_id", Json.int 1), ("operation", Json.str "validate"),
             ("status", Json.str "completed")]) "task_id" := by rw [hEq]
      _ = none := rfl
  exact Option.noConfusion hLook

/-- Claim C6 (amended): process_item on (item_id = 1, operation =
"validate") terminates with status SUCCESS and the result mapping
containing task_id = the job's identifier, item_id = 1, operation =
"validate" and status = "completed" — i.e. the claim's three entries plus
the task_id entry the code adds. -/
theorem process_item_validate_result (taskId : String) :
    process_item taskId 1 "validate" =
      Json.obj
        [("task_id", Json.str taskId), ("item_id", Json.int 1),
         ("operation", Json.str "validate"), ("status", Json.str "completed")] ∧
    get_task_status (backendWith taskId (completedRecord (process_item taskId 1 "validate"))) taskId =
      TaskStatusResponse.mk taskId "SUCCESS" (some (process_item taskId 1 "validate")) none := by
  refine ⟨rfl, ?_⟩
  simp [get_task_status, backendWith, asyncResultState, asyncResultValue, ready,
    successful, completedRecord, stateName]

/-- Claim C7: for every input list, the final result dict of bulk_import
reports total_items = N and processed = N, and a status query after
completion reports SUCCESS carrying that dict as the result; in
particular this holds at N = 3. -/
theorem bulk_import_reports_counts (taskId : String) (items : List Json) :
    Json.lookup (bulk_import taskId items).2 "total_items" = some (Json.int items.length) ∧
    Json.lookup (bulk_import taskId items).2 "processed" = some (Json.int items.length) ∧
    (get_task_status (backendWith taskId (completedRecord (bulk_import taskId items).2)) taskId).status = "SUCCESS" ∧
    (get_task_status (backendWith taskId (completedRecord (bulk_import taskId items).2)) taskId).result = some ((bulk_import taskId items).2) := by
  refine ⟨?_, ?_, ?_, ?_⟩
  · rw [bulk_import_result]
    rfl
  · rw [bulk_import_result]
    rfl
  · simp [get_task_status, backendWith, asyncResultState, asyncResultValue, ready,
      successful, completedRecord, stateName]
  · simp [get_task_status, backendWith, asyncResultState, asyncResultValue, ready,
      successful, completedRecord, stateName]

/-- Claim C8: revoking an identifier the backend has no record of is not
rejected: the unknown id reads as PENDING (non-terminal), so the handler
broadcasts the revoke and returns the 200 body, exactly as it does for a
genuinely pending job. -/
theorem revoke_task_unknown_id (backend : Backend) (tid : String)
    (h : backend tid = none) :
    revoke_task backend tid = (RevokeResponse.ok tid "revoked", true) ∧
    revoke_task backend tid =
      revoke_task (backendWith tid (BackendRecord.mk CeleryState.PENDING Json.null)) tid := by
  simp [revoke_task, asyncResultState, h, backendWith, ready]

/-- Claim C8 witness: the theorem at the empty backend. -/
theorem revoke_task_unknown_id_witness :
    ((fun _ => none : Backend) "ghost-2" = none) ∧
    (revoke_task (fun _ => none) "ghost-2" = (RevokeResponse.ok "ghost-2" "revoked", true) ∧
     revoke_task (fun _ => none) "ghost-2" =
       revoke_task (backendWith "ghost-2" (BackendRecord.mk CeleryState.PENDING Json.null)) "ghost-2") :=
  ⟨rfl, revoke_task_unknown_id (fun _ => none) "ghost-2" rfl⟩

/-- Claim C9: bulk_import on the empty list publishes no progress update
at all (so the percent expression is never evaluated — in particular
never with total = 0) and returns the result dict with total_items = 0
and processed = 0; the run completes with status SUCCESS. -/
theorem bulk_import_empty_list (taskId : String) :
    (bulk_import taskId []).1 = [] ∧
    (bulk_import taskId []).2 =
      Json.obj
        [("task_id", Json.str taskId), ("status", Json.str "completed"),
         ("total_items", Json.int 0), ("processed", Json.int 0)] ∧
    (get_task_status (backendWith taskId (completedRecord (bulk_import taskId []).2)) taskId).status = "SUCCESS" := by
  refine ⟨rfl, rfl, ?_⟩
  simp [get_task_status, backendWith, asyncResultState, asyncResultValue, ready,
    successful, completedRecord, stateName]

/-- Claim C10: process_file accepts every operation string — including
ones outside the four documented operations, which merely fall back to
the default processing time — and completes with status SUCCESS and the
result dict echoing filename and operation unchanged; no validation path
rejects an unknown operation. -/
theorem process_file_accepts_any_operation (taskId filename operation : String) :
    (process_file taskId filename operation).2 =
      Json.obj
        [("task_id", Json.str taskId), ("filename", Json.str filename),
         ("operation", Json.str operation), ("status", Json.str "completed")] ∧
    get_task_status (backendWith taskId (completedRecord (process_file taskId filename operation).2)) taskId =
      TaskStatusResponse.mk taskId "SUCCESS" (some ((process_file taskId filename operation).2)) none := by
  refine ⟨rfl, ?_⟩
  simp [get_task_status, backendWith, asyncResultState, asyncResultValue, ready,
    successful, completedRecord, stateName]

end FCApp
